import Mathlib

/-!
Verification of the sphere-shell-septum mesh generator
(`meshtype_3d_sphereshellseptum1.py`) against its natural-language
specification.  The Python module is shallowly embedded: the pure
interpolation kernel becomes functions on `List ℝ`, option validation
becomes a pure function on an options record, and the stateful
node/element creation performed by `generateMesh` is embedded as the
trace (in creation order) of node data and element data it produces.
-/

namespace SphereShellSeptum

/-! ## Interpolation kernel (lines 15-44 of the source) -/

/-- Loop body shared by the two interpolation functions: iterate over the
entries of `v1`; for each index the corresponding entries of `d1`, `v2`,
`d2` are demanded, an out-of-range access (a Python `IndexError`) being
modelled as `none`. -/
def hermiteCombineLists (f1 f2 f3 f4 : ℝ) :
    List ℝ → List ℝ → List ℝ → List ℝ → Option (List ℝ)
  | [], _, _, _ => some []
  | a :: as, b :: bs, c :: cs, d :: ds =>
      (hermiteCombineLists f1 f2 f3 f4 as bs cs ds).map
        (fun r => (f1 * a + f2 * b + f3 * c + f4 * d) :: r)
  | _, _, _, _ => none

/-- Source `interpolateCubicHermite(v1, d1, v2, d2, xi)` from the source. -/
def interpolateCubicHermite (v1 d1 v2 d2 : List ℝ) (xi : ℝ) : Option (List ℝ) :=
  let xi2 := xi * xi
  let xi3 := xi2 * xi
  hermiteCombineLists (1.0 - 3.0 * xi2 + 2.0 * xi3) (xi - 2.0 * xi2 + xi3)
    (3.0 * xi2 - 2.0 * xi3) (-xi2 + xi3) v1 d1 v2 d2

/-- Source `interpolateCubicHermiteDerivative(v1, d1, v2, d2, xi)` from the source. -/
def interpolateCubicHermiteDerivative (v1 d1 v2 d2 : List ℝ) (xi : ℝ) : Option (List ℝ) :=
  let xi2 := xi * xi
  hermiteCombineLists (-6.0 * xi + 6.0 * xi2) (1.0 - 4.0 * xi + 3.0 * xi2)
    (6.0 * xi - 6.0 * xi2) (-2.0 * xi + 3.0 * xi2) v1 d1 v2 d2

/-! ## Options and their validation (lines 54-91) -/

/-- The six recognized options of `MeshType_3d_sphereshellseptum1`.
Integer options are modelled as `ℤ`, floating-point options as `ℚ`
(the validation logic only compares and copies them). -/
structure Options where
  elementsCountUp : ℤ
  elementsCountAcross : ℤ
  wallThicknessLeft : ℚ
  wallThicknessRight : ℚ
  apexScaleFactorIdentifierOffset : ℤ
  useCrossDerivatives : Bool
deriving DecidableEq

/-- Source `getDefaultOptions` from the source. -/
def getDefaultOptions : Options :=
  { elementsCountUp := 4
    elementsCountAcross := 2
    wallThicknessLeft := 0.25
    wallThicknessRight := 0.25
    apexScaleFactorIdentifierOffset := 10000
    useCrossDerivatives := false }

/-- Source `checkOptions` from the source (lines 76-91); the in-place dict
mutation is embedded as a pure record update. -/
def checkOptions (o : Options) : Options :=
  { elementsCountUp := if o.elementsCountUp < 2 then 2 else o.elementsCountUp
    elementsCountAcross := if o.elementsCountAcross < 2 then 2 else o.elementsCountAcross
    wallThicknessLeft :=
      if o.wallThicknessLeft < 0 then 0
      else if o.wallThicknessLeft > 0.5 then 0.5
      else o.wallThicknessLeft
    wallThicknessRight :=
      if o.wallThicknessRight < 0 then 0
      else if o.wallThicknessRight > 0.5 then 0.5
      else o.wallThicknessRight
    apexScaleFactorIdentifierOffset :=
      if o.apexScaleFactorIdentifierOffset < 0 then 0
      else o.apexScaleFactorIdentifierOffset
    useCrossDerivatives := o.useCrossDerivatives }

/-! ## Apex scale-factor identifiers (lines 100-104, 173-216) -/

/-- Line 103 of the source: inside `generateMesh` the variable
`apexScaleFactorIdentifierOffset` is assigned the literal `10000`;
the options dict passed in is not consulted for it. -/
def generateMesh_apexScaleFactorIdentifierOffset (_options : Options) : ℤ := 10000

/-- Scale-factor identifiers declared by `eftOuterApex0` (lines 176-181):
for `s = 0..7` the identifier is `(s % 2) + 1`, offset for `s < 4`. -/
def eftOuterApex0_scaleFactorIdentifiers (apexOffset : ℤ) : List ℤ :=
  (List.range 8).map (fun s => ((s % 2 : ℕ) + 1 : ℤ) + (if s < 4 then apexOffset else 0))

/-- Scale-factor identifiers of the eight node-general factors of
`eftOuterApex1` (lines 211-216, `i = 1`): offset applied for `s < 4`. -/
def eftOuterApex1_scaleFactorIdentifiers (apexOffset : ℤ) : List ℤ :=
  (List.range 8).map (fun s => ((s % 2 : ℕ) + 1 : ℤ) + (if s < 4 then apexOffset else 0))

/-- Scale-factor identifiers of the eight node-general factors of
`eftOuterApex2` (lines 211-216, `i = 2`): offset applied for `s >= 4`. -/
def eftOuterApex2_scaleFactorIdentifiers (apexOffset : ℤ) : List ℤ :=
  (List.range 8).map (fun s => ((s % 2 : ℕ) + 1 : ℤ) + (if 4 ≤ s then apexOffset else 0))

/-! ## Element creation trace (lines 522-649) -/

/-- The seven element-field-template variants built by `generateMesh`. -/
inductive EftVariant
  | regular
  | outer
  | outerApex0
  | outerApex1
  | outerApex2
  | inner1
  | inner2
deriving DecidableEq

/-- The scale-factor assignment performed at element creation:
either no call, `setScaleFactors` with a full vector, or a single
`setScaleFactor(index, value)` call. -/
inductive ScaleAction
  | noScale
  | setAll (values : List ℝ)
  | setOne (index : ℕ) (value : ℝ)

/-- Whether a scale action supplies a complete vector of scale factors. -/
def ScaleAction.isSetAll : ScaleAction → Bool
  | .setAll _ => true
  | _ => false

/-- Source `scaleFactorsOuter` (lines 522-525). -/
noncomputable def scaleFactorsOuter : List ℝ :=
  [Real.cos (0.25 * Real.pi), Real.cos (0.25 * Real.pi),
   Real.cos (0.25 * Real.pi), -Real.cos (0.25 * Real.pi),
   Real.cos (0.25 * Real.pi), Real.cos (0.25 * Real.pi),
   Real.cos (0.25 * Real.pi), -Real.cos (0.25 * Real.pi)]

/-- Source `scaleFactorsOuterApex1` (lines 526-529). -/
noncomputable def scaleFactorsOuterApex1 : List ℝ :=
  [-1.0,
   -Real.cos (0.25 * Real.pi), Real.cos (0.25 * Real.pi),
   -Real.cos (0.25 * Real.pi), -Real.cos (0.25 * Real.pi),
   Real.cos (0.25 * Real.pi), Real.cos (0.25 * Real.pi),
   Real.cos (0.25 * Real.pi), -Real.cos (0.25 * Real.pi)]

/-- Source `scaleFactorsOuterApex2` (lines 530-533). -/
noncomputable def scaleFactorsOuterApex2 : List ℝ :=
  [-1.0,
   Real.cos (0.25 * Real.pi), Real.cos (0.25 * Real.pi),
   Real.cos (0.25 * Real.pi), -Real.cos (0.25 * Real.pi),
   -Real.cos (0.25 * Real.pi), Real.cos (0.25 * Real.pi),
   -Real.cos (0.25 * Real.pi), -Real.cos (0.25 * Real.pi)]

/-- Source `scaleFactorsInner1` (lines 534-537); defined by the source but never
passed to any element. -/
noncomputable def scaleFactorsInner1 : List ℝ :=
  [-1.0,
   Real.cos (0.25 * Real.pi), Real.cos (0.25 * Real.pi),
   Real.cos (0.25 * Real.pi), Real.cos (0.25 * Real.pi),
   Real.cos (0.25 * Real.pi), -Real.cos (0.25 * Real.pi),
   Real.cos (0.25 * Real.pi), -Real.cos (0.25 * Real.pi)]

/-- One element creation: the template variant used, the eight node
identifiers passed to `setNodesByIdentifier`, and the scale-factor call. -/
structure ElemPre where
  eft : EftVariant
  nodeIdentifiers : List ℕ
  scale : ScaleAction

/-- One created element, with its identifier. -/
structure ElemRec where
  id : ℕ
  eft : EftVariant
  nodeIdentifiers : List ℕ
  scale : ScaleAction

/-- Source `rno = elementsCountAcross + 3`, the node-identifier row stride
(line 541). -/
def rno (elementsCountAcross : ℕ) : ℕ := elementsCountAcross + 3

/-- Source `wno = (elementsCountUp - 1)*rno + 4`, the node-identifier wall-side
stride (line 542). -/
def wno (elementsCountUp elementsCountAcross : ℕ) : ℕ :=
  (elementsCountUp - 1) * rno elementsCountAcross + 4

/-- The two bottom apex row elements (lines 544-565). -/
noncomputable def elemBottomApexRow (U A : ℕ) : List ElemPre :=
  [{ eft := .outerApex1,
     nodeIdentifiers := [2, 2 + wno U A, 4, 4 + wno U A, 1, 1 + wno U A, 3, 3 + wno U A],
     scale := .setAll scaleFactorsOuterApex1 },
   { eft := .outerApex0,
     nodeIdentifiers := [wno U A + 2, 2, wno U A + rno A + 1, rno A + 1,
       wno U A + 1, 1, wno U A + rno A + 2, rno A + 2],
     scale := .setAll scaleFactorsOuter }]

/-- The elements of interior row `e2` (the body of the
`for e2 in range(0, elementsCountUp - 2)` loop, lines 567-624), with
`bn = e2*rno + 2`: one outer, one inner1, `A - 2` regular, one inner2,
one outer element. -/
noncomputable def elemRowBlock (U A e2 : ℕ) : List ElemPre :=
  let bn := e2 * rno A + 2
  ([{ eft := .outer,
      nodeIdentifiers := [bn + 2, bn + wno U A + 2, bn + rno A + 2, bn + wno U A + rno A + 2,
        bn + 1, bn + wno U A + 1, bn + rno A + 1, bn + wno U A + rno A + 1],
      scale := .setAll scaleFactorsOuter },
    { eft := .inner1,
      nodeIdentifiers := [bn + 2, bn + 3, bn + rno A + 2, bn + rno A + 3,
        bn + 2 + wno U A, bn + 3 + wno U A, bn + rno A + 2 + wno U A, bn + rno A + 3 + wno U A],
      scale := .setOne 1 (-1.0) }] : List ElemPre) ++
  ((List.range (A - 2)).map (fun e1 =>
    { eft := .regular,
      nodeIdentifiers := [bn + e1 + 3, bn + e1 + 4, bn + rno A + e1 + 3, bn + rno A + e1 + 4,
        bn + e1 + 3 + wno U A, bn + e1 + 4 + wno U A,
        bn + rno A + e1 + 3 + wno U A, bn + rno A + e1 + 4 + wno U A],
      scale := .noScale })) ++
  [{ eft := .inner2,
     nodeIdentifiers := [bn + rno A - 2, bn + rno A - 1, bn + 2 * rno A - 2, bn + 2 * rno A - 1,
       bn + rno A - 2 + wno U A, bn + rno A - 1 + wno U A,
       bn + 2 * rno A - 2 + wno U A, bn + 2 * rno A - 1 + wno U A],
     scale := .setOne 1 (-1.0) },
   { eft := .outer,
     nodeIdentifiers := [bn + wno U A + rno A - 1, bn + rno A - 1, bn + wno U A + 2 * rno A - 1,
       bn + 2 * rno A - 1, bn + wno U A + rno A, bn + rno A, bn + wno U A + 2 * rno A,
       bn + 2 * rno A],
     scale := .setAll scaleFactorsOuter }]

/-- The two top apex row elements (lines 626-649). -/
noncomputable def elemTopApexRow (U A : ℕ) : List ElemPre :=
  [{ eft := .outerApex0,
     nodeIdentifiers := [wno U A - rno A, 2 * wno U A - rno A, wno U A - 1, 2 * wno U A - 1,
       wno U A - rno A - 1, 2 * wno U A - rno A - 1, wno U A, 2 * wno U A],
     scale := .setAll scaleFactorsOuter },
   { eft := .outerApex2,
     nodeIdentifiers := [2 * wno U A - 3, wno U A - 3, 2 * wno U A - 1, wno U A - 1,
       2 * wno U A - 2, wno U A - 2, 2 * wno U A, wno U A],
     scale := .setAll scaleFactorsOuterApex2 }]

/-- The element creations of `generateMesh` (lines 539-649) in program
order: bottom apex row, `elementsCountUp - 2` interior rows, top apex
row. -/
noncomputable def elemCreationSequence (elementsCountUp elementsCountAcross : ℕ) :
    List ElemPre :=
  elemBottomApexRow elementsCountUp elementsCountAcross ++
  ((List.range (elementsCountUp - 2)).map
    (elemRowBlock elementsCountUp elementsCountAcross)).flatten ++
  elemTopApexRow elementsCountUp elementsCountAcross

/-- The elements created by `generateMesh(region, options)`, with their
sequential identifiers (`elementIdentifier` starts at 1 and increments
by one per creation). -/
noncomputable def generateMeshElements (o : Options) : List ElemRec :=
  ((elemCreationSequence o.elementsCountUp.toNat o.elementsCountAcross.toNat).enum).map
    (fun p => { id := p.1 + 1, eft := p.2.eft,
                nodeIdentifiers := p.2.nodeIdentifiers, scale := p.2.scale })

/-! ## Node creation trace (lines 340-520) -/

/-- Data assigned to one node: position, the three first-derivative
vectors, and the four cross-derivative vectors when they are set
(row nodes with `useCrossDerivatives`; the source sets them to `zero`). -/
structure NodeData where
  x : List ℝ
  dx_ds1 : List ℝ
  dx_ds2 : List ℝ
  dx_ds3 : List ℝ
  cross : Option (List (List ℝ))

/-- One created node, with its identifier. -/
structure NodeRec where
  id : ℕ
  x : List ℝ
  dx_ds1 : List ℝ
  dx_ds2 : List ℝ
  dx_ds3 : List ℝ
  cross : Option (List (List ℝ))

/-- Source `sign = -1.0 if (n3 == 0) else 1.0` (line 356). -/
def sign (n3 : ℕ) : ℝ := if n3 = 0 then -1.0 else 1.0

/-- Source `wallThickness[n3]` for `wallThickness = [left, right]` (line 102). -/
def wallThicknessAt (wt0 wt1 : ℝ) (n3 : ℕ) : ℝ := if n3 = 0 then wt0 else wt1

/-- Source `wallThicknessSeptum = wallThickness[0]` (line 352). -/
def wallThicknessSeptum (wt0 : ℝ) : ℝ := wt0

/-- Source `radiusY = 0.5*wallThicknessSeptum` (line 357). -/
def radiusY (wt0 : ℝ) : ℝ := 0.5 * wallThicknessSeptum wt0

/-- Source `radiusX = 0.5 - wallThicknessMax` with `wallThicknessMax = max(wallThickness)`
(lines 354, 358). -/
noncomputable def radiusX (wt0 wt1 : ℝ) : ℝ := 0.5 - max wt0 wt1

/-- Source `sideBulge = 8.0*radiusY*radiusX/elementsCountAcross` (line 359). -/
noncomputable def sideBulge (wt0 wt1 : ℝ) (elementsCountAcross : ℕ) : ℝ :=
  8.0 * radiusY wt0 * radiusX wt0 wt1 / elementsCountAcross

/-- Source `radiansPerElementUp = math.pi/elementsCountUp` (line 342). -/
noncomputable def radiansPerElementUp (elementsCountUp : ℕ) : ℝ :=
  Real.pi / elementsCountUp

/-- Source `sin_angle_radians = math.sin(math.pi/4)` (lines 344-345). -/
noncomputable def sin_angle_radians : ℝ := Real.sin (Real.pi / 4)

/-- Source `cos_angle_radians = math.cos(math.pi/4)` (lines 344-346). -/
noncomputable def cos_angle_radians : ℝ := Real.cos (Real.pi / 4)

/-- The `y`-adjustment applied to the outer-wall and outermost apex nodes
(lines 365-368, 413-416, 509-512): `x[1] -= sideBulge` when
`wallThickness[0] > wallThickness[1]`, `x[1] += sideBulge` when
`wallThickness[0] < wallThickness[1]`, unchanged otherwise. -/
noncomputable def outerYAdjust (wt0 wt1 : ℝ) (A : ℕ) : ℝ :=
  if wt0 > wt1 then -sideBulge wt0 wt1 A
  else if wt0 < wt1 then sideBulge wt0 wt1 A
  else 0

/-- The condition of lines 383-384 (and 433-434, 490-491) selecting the
straight-through-wall `dx_ds3`. -/
def thickerOtherSide (wt0 wt1 : ℝ) (n3 : ℕ) : Prop :=
  (n3 = 1 ∧ wt0 > wt1) ∨ (n3 = 0 ∧ wt0 < wt1)

noncomputable instance (wt0 wt1 : ℝ) (n3 : ℕ) : Decidable (thickerOtherSide wt0 wt1 n3) := by
  unfold thickerOtherSide
  infer_instance

/-- First bottom apex node of wall side `n3` (lines 361-376). -/
noncomputable def bottomApexNode1 (wt0 wt1 : ℝ) (U A n3 : ℕ) : NodeData :=
  let radius := radiusX wt0 wt1 + wallThicknessAt wt0 wt1 n3
  { x := [0, -sign n3 * radiusY wt0 + outerYAdjust wt0 wt1 A, -radius]
    dx_ds1 := [0, wallThicknessSeptum wt0, 0]
    dx_ds2 := [radius * radiansPerElementUp U, 0, 0]
    dx_ds3 := [0, 0, -wallThicknessAt wt0 wt1 n3]
    cross := none }

/-- Second bottom apex node of wall side `n3` (lines 378-397). -/
noncomputable def bottomApexNode2 (wt0 wt1 : ℝ) (U A n3 : ℕ) : NodeData :=
  let radius := radiusX wt0 wt1
  let mag1 := 2.0 * radius / A
  { x := [0, -sign n3 * (radiusY wt0 + sideBulge wt0 wt1 A), -radius]
    dx_ds1 := [0, mag1 * sin_angle_radians, sign n3 * mag1 * cos_angle_radians]
    dx_ds2 := [radius * radiansPerElementUp U, 0, 0]
    dx_ds3 :=
      if thickerOtherSide wt0 wt1 n3 then
        [0, 0, -wallThicknessAt wt0 wt1 n3]
      else
        [0, sign n3 * wallThicknessAt wt0 wt1 n3 * cos_angle_radians,
         -(wallThicknessAt wt0 wt1 n3 * sin_angle_radians)]
    cross := none }

/-- Node `(n2, n1)` of the regular rows of wall side `n3`
(lines 399-481): `n1 = 0` and `n1 = A+2` are the outer-wall nodes,
`n1 = 1` and `n1 = A+1` the inner-wall nodes, the rest the interior
septum nodes obtained from the interpolation kernel. -/
noncomputable def rowNode (wt0 wt1 : ℝ) (U A : ℕ) (useCross : Bool) (n3 n2 n1 : ℕ) :
    NodeData :=
  let radiansUp := n2 * radiansPerElementUp U
  let cosRadiansUp := Real.cos radiansUp
  let sinRadiansUp := Real.sin radiansUp
  let wtn := wallThicknessAt wt0 wt1 n3
  let cross : Option (List (List ℝ)) :=
    if useCross then some [[0, 0, 0], [0, 0, 0], [0, 0, 0], [0, 0, 0]] else none
  if n1 = 0 ∨ n1 = A + 2 then
    let flip : ℝ := if n1 = 0 then -1.0 else 1.0
    let radius := radiusX wt0 wt1 + wtn
    let mag2 := radius * radiansPerElementUp U
    let mag3 := wtn * flip
    { x := [if n1 = 0 then -(radius * sinRadiansUp) else radius * sinRadiansUp,
            -sign n3 * radiusY wt0 + outerYAdjust wt0 wt1 A,
            -radius * cosRadiansUp]
      dx_ds1 := [0, flip * wallThicknessSeptum wt0, 0]
      dx_ds2 := [mag2 * cosRadiansUp * flip, 0, mag2 * sinRadiansUp]
      dx_ds3 := [mag3 * sinRadiansUp, 0, -(mag3 * cosRadiansUp * flip)]
      cross := cross }
  else if n1 = 1 ∨ n1 = A + 1 then
    let flip : ℝ := if n1 = 1 then -1.0 else 1.0
    let radius := radiusX wt0 wt1
    let mag1 := 2.0 * radius / A
    let mag2 := radius * radiansPerElementUp U
    let mag3 := wtn
    { x := [flip * sinRadiansUp * radius, sign n3 * (-radiusY wt0 - sideBulge wt0 wt1 A),
            -cosRadiansUp * radius]
      dx_ds1 := [-sign n3 * sinRadiansUp * mag1 * cos_angle_radians,
                 flip * mag1 * sin_angle_radians,
                 flip * sign n3 * cosRadiansUp * mag1 * cos_angle_radians]
      dx_ds2 := [mag2 * cosRadiansUp * flip, 0, mag2 * sinRadiansUp]
      dx_ds3 :=
        if thickerOtherSide wt0 wt1 n3 then
          [flip * sinRadiansUp * mag3, 0, -(cosRadiansUp * mag3)]
        else
          [flip * sinRadiansUp * mag3 * sin_angle_radians,
           sign n3 * mag3 * cos_angle_radians,
           -(cosRadiansUp * mag3 * sin_angle_radians)]
      cross := cross }
  else
    let xi2 : ℝ := (n2 : ℝ) / U
    let radius := radiusX wt0 wt1
    let mag1 := 2.0 * radius / A
    let mag2 := radius * radiansPerElementUp U
    let ds1c0 := -sign n3 * sinRadiansUp * mag1 * cos_angle_radians
    let ds1c2 := (-1.0) * sign n3 * cosRadiansUp * mag1 * cos_angle_radians
    let mag := Real.sqrt (ds1c0 * ds1c0 + ds1c2 * ds1c2)
    let scale1 := -sign n3 / mag * radius * sinRadiansUp
    let v1 : List ℝ := [-sinRadiansUp * radius, -sign n3 * radiusY wt0, -cosRadiansUp * radius]
    let d1 : List ℝ := [scale1 * ds1c0, 0, scale1 * ds1c2]
    let v2 : List ℝ := [0, -sign n3 * radiusY wt0, 2.0 * (xi2 - 0.5) * radius]
    let d2 : List ℝ := [radius * sinRadiansUp, 0, 0]
    let v1x : List ℝ := [mag2 * cosRadiansUp * (-1.0), 0, mag2 * sinRadiansUp]
    let d1x : List ℝ := [0, 0, 0]
    let v2x : List ℝ := [0, 0, 2.0 * radiusX wt0 wt1 / U]
    let d2x : List ℝ := [0, 0, 0]
    let xi : ℝ := ((n1 - 1 : ℕ) : ℝ) / A
    let flipHalf := (n1 - 1) * 2 > A
    let cxi := if flipHalf then 2.0 - xi * 2.0 else xi * 2.0
    let v := (interpolateCubicHermite v1 d1 v2 d2 cxi).getD []
    let d := (interpolateCubicHermiteDerivative v1 d1 v2 d2 cxi).getD []
    let dx := (interpolateCubicHermite v1x d1x v2x d2x cxi).getD []
    { x := if flipHalf then [-v.getD 0 0, v.getD 1 0, v.getD 2 0]
           else [v.getD 0 0, v.getD 1 0, v.getD 2 0]
      dx_ds1 := if flipHalf then [2.0 * d.getD 0 0 / A, 0, -(2.0 * d.getD 2 0) / A]
                else [2.0 * d.getD 0 0 / A, 0, 2.0 * d.getD 2 0 / A]
      dx_ds2 := if flipHalf then [-dx.getD 0 0, 0, dx.getD 2 0]
                else [dx.getD 0 0, 0, dx.getD 2 0]
      dx_ds3 := [0, -wallThicknessSeptum wt0, 0]
      cross := cross }

/-- First top apex node of wall side `n3` (lines 483-504). -/
noncomputable def topApexNode1 (wt0 wt1 : ℝ) (U A n3 : ℕ) : NodeData :=
  let radius := radiusX wt0 wt1
  let mag1 := 2.0 * radius / A
  { x := [0, -sign n3 * (radiusY wt0 + sideBulge wt0 wt1 A), radius]
    dx_ds1 := [0, -(mag1 * sin_angle_radians), sign n3 * mag1 * cos_angle_radians]
    dx_ds2 := [radius * radiansPerElementUp U, 0, 0]
    dx_ds3 :=
      if thickerOtherSide wt0 wt1 n3 then
        [0, 0, wallThicknessAt wt0 wt1 n3]
      else
        [0, sign n3 * wallThicknessAt wt0 wt1 n3 * cos_angle_radians,
         wallThicknessAt wt0 wt1 n3 * sin_angle_radians]
    cross := none }

/-- Second top apex node of wall side `n3` (lines 506-520). -/
noncomputable def topApexNode2 (wt0 wt1 : ℝ) (U A n3 : ℕ) : NodeData :=
  let radius := radiusX wt0 wt1 + wallThicknessAt wt0 wt1 n3
  { x := [0, -sign n3 * radiusY wt0 + outerYAdjust wt0 wt1 A, radius]
    dx_ds1 := [0, -wallThicknessSeptum wt0, 0]
    dx_ds2 := [radius * radiansPerElementUp U, 0, 0]
    dx_ds3 := [0, 0, wallThicknessAt wt0 wt1 n3]
    cross := none }

/-- All nodes of wall side `n3` in creation order (the body of the
`for n3 in range(2)` loop, lines 355-520): two bottom apex nodes, the
rows `n2 = 1 .. elementsCountUp - 1` each with columns
`n1 = 0 .. elementsCountAcross + 2`, and two top apex nodes. -/
noncomputable def sideNodes (wt0 wt1 : ℝ) (U A : ℕ) (useCross : Bool) (n3 : ℕ) :
    List NodeData :=
  [bottomApexNode1 wt0 wt1 U A n3, bottomApexNode2 wt0 wt1 U A n3] ++
  ((List.range (U - 1)).map (fun k =>
    (List.range (A + 3)).map (fun n1 => rowNode wt0 wt1 U A useCross n3 (k + 1) n1))).flatten ++
  [topApexNode1 wt0 wt1 U A n3, topApexNode2 wt0 wt1 U A n3]

/-- The nodes created by `generateMesh(region, options)` with their
sequential identifiers (`nodeIdentifier` starts at 1 and increments by
one per creation): wall side `n3 = 0` first, then `n3 = 1`. -/
noncomputable def generateMeshNodes (o : Options) : List NodeRec :=
  let U := o.elementsCountUp.toNat
  let A := o.elementsCountAcross.toNat
  let wt0 : ℝ := (o.wallThicknessLeft : ℝ)
  let wt1 : ℝ := (o.wallThicknessRight : ℝ)
  ((sideNodes wt0 wt1 U A o.useCrossDerivatives 0 ++
    sideNodes wt0 wt1 U A o.useCrossDerivatives 1).enum).map
    (fun p => { id := p.1 + 1, x := p.2.x, dx_ds1 := p.2.dx_ds1,
                dx_ds2 := p.2.dx_ds2, dx_ds3 := p.2.dx_ds3, cross := p.2.cross })

/-- The full creation trace of `generateMesh`: all nodes then all
elements, in creation order. -/
noncomputable def generateMeshTrace (o : Options) : List NodeRec × List ElemRec :=
  (generateMeshNodes o, generateMeshElements o)

/-- Mirror image about the septum mid-plane `y = 0`. -/
def mirrorY (v : List ℝ) : List ℝ := [v.getD 0 0, -v.getD 1 0, v.getD 2 0]

/-! ## Concrete option dictionaries used as test inputs -/

/-- The smallest clamped options: 2 elements up, 2 across. -/
def optionsU2A2 : Options :=
  { elementsCountUp := 2
    elementsCountAcross := 2
    wallThicknessLeft := 0.25
    wallThicknessRight := 0.25
    apexScaleFactorIdentifierOffset := 10000
    useCrossDerivatives := false }

/-- Default options except for a small apex scale-factor identifier offset. -/
def optionsOffset5 : Options :=
  { getDefaultOptions with apexScaleFactorIdentifierOffset := 5 }

/-- Options with every numeric entry below its valid range. -/
def optionsLow : Options :=
  { elementsCountUp := 0
    elementsCountAcross := 1
    wallThicknessLeft := -1
    wallThicknessRight := -0.25
    apexScaleFactorIdentifierOffset := -5
    useCrossDerivatives := true }

/-- Options with both wall thicknesses above 0.5. -/
def optionsHigh : Options :=
  { elementsCountUp := 4
    elementsCountAcross := 2
    wallThicknessLeft := 1
    wallThicknessRight := 0.7
    apexScaleFactorIdentifierOffset := 3
    useCrossDerivatives := false }

/-- The default options written with different (but equal) literals. -/
def optionsDefaultAlt : Options :=
  { elementsCountUp := 4
    elementsCountAcross := 2
    wallThicknessLeft := 1 / 4
    wallThicknessRight := 1 / 4
    apexScaleFactorIdentifierOffset := 10000
    useCrossDerivatives := false }

/-! ## Interpolation kernel lemmas -/

lemma hermiteCombineLists_some (f1 f2 f3 f4 : ℝ) :
    ∀ (v1 d1 v2 d2 : List ℝ), v1.length ≤ d1.length → v1.length ≤ v2.length →
      v1.length ≤ d2.length →
      ∃ r : List ℝ, hermiteCombineLists f1 f2 f3 f4 v1 d1 v2 d2 = some r ∧
        r.length = v1.length ∧
        ∀ i, i < v1.length →
          r.getD i 0 = f1 * v1.getD i 0 + f2 * d1.getD i 0 + f3 * v2.getD i 0 +
            f4 * d2.getD i 0 := by
  intro v1
  induction v1 with
  | nil =>
      intro d1 v2 d2 _ _ _
      exact ⟨[], rfl, rfl, fun i hi => absurd hi (by simp)⟩
  | cons a as ih =>
      intro d1 v2 d2 h1 h2 h3
      match d1, v2, d2 with
      | [], _, _ => simp at h1
      | _ :: _, [], _ => simp at h2
      | _ :: _, _ :: _, [] => simp at h3
      | b :: bs, c :: cs, d :: ds =>
          obtain ⟨r, hr, hlen, hcomp⟩ := ih bs cs ds (by simpa using h1)
            (by simpa using h2) (by simpa using h3)
          refine ⟨(f1 * a + f2 * b + f3 * c + f4 * d) :: r, ?_, by simp [hlen], ?_⟩
          · simp [hermiteCombineLists, hr]
          · intro i hi
            cases i with
            | zero => simp
            | succ j =>
                simp only [List.getD_cons_succ]
                exact hcomp j (by simpa using hi)

lemma hermiteCombineLists_none (f1 f2 f3 f4 : ℝ) :
    ∀ (v1 d1 v2 d2 : List ℝ),
      (d1.length < v1.length ∨ v2.length < v1.length ∨ d2.length < v1.length) →
      hermiteCombineLists f1 f2 f3 f4 v1 d1 v2 d2 = none := by
  intro v1
  induction v1 with
  | nil => intro d1 v2 d2 h; simp at h
  | cons a as ih =>
      intro d1 v2 d2 h
      match d1, v2, d2 with
      | [], _, _ => rfl
      | _ :: _, [], _ => rfl
      | _ :: _, _ :: _, [] => rfl
      | b :: bs, c :: cs, d :: ds =>
          have : hermiteCombineLists f1 f2 f3 f4 as bs cs ds = none := by
            apply ih
            simpa [Nat.succ_lt_succ_iff] using h
          simp [hermiteCombineLists, this]

lemma hermiteCombineLists_length_trichotomy (f1 f2 f3 f4 : ℝ)
    (v1 d1 v2 d2 : List ℝ) :
    (hermiteCombineLists f1 f2 f3 f4 v1 d1 v2 d2).map List.length =
      if v1.length ≤ d1.length ∧ v1.length ≤ v2.length ∧ v1.length ≤ d2.length then
        some v1.length
      else none := by
  by_cases h : v1.length ≤ d1.length ∧ v1.length ≤ v2.length ∧ v1.length ≤ d2.length
  · obtain ⟨r, hr, hlen, -⟩ := hermiteCombineLists_some f1 f2 f3 f4 v1 d1 v2 d2 h.1 h.2.1 h.2.2
    simp [hr, hlen, h]
  · rw [hermiteCombineLists_none f1 f2 f3 f4 v1 d1 v2 d2 (by omega)]
    simp [h]

/-! ## C7 and C10: the interpolation kernel -/

/-- C7: for same-length tuples, `interpolateCubicHermite` returns the
cubic Hermite blend with weights `1-3xi^2+2xi^3`, `xi-2xi^2+xi^3`,
`3xi^2-2xi^3`, `-xi^2+xi^3`, and `interpolateCubicHermiteDerivative`
the blend with the derivative weights `-6xi+6xi^2`, `1-4xi+3xi^2`,
`6xi-6xi^2`, `-2xi+3xi^2`. -/
theorem interpolateCubicHermite_blend (v1 d1 v2 d2 : List ℝ) (xi : ℝ)
    (h1 : v1.length ≤ d1.length) (h2 : v1.length ≤ v2.length)
    (h3 : v1.length ≤ d2.length) :
    ∃ r s : List ℝ,
      interpolateCubicHermite v1 d1 v2 d2 xi = some r ∧
      interpolateCubicHermiteDerivative v1 d1 v2 d2 xi = some s ∧
      r.length = v1.length ∧ s.length = v1.length ∧
      (∀ i, i < v1.length →
        r.getD i 0 = (1 - 3 * xi ^ 2 + 2 * xi ^ 3) * v1.getD i 0
          + (xi - 2 * xi ^ 2 + xi ^ 3) * d1.getD i 0
          + (3 * xi ^ 2 - 2 * xi ^ 3) * v2.getD i 0
          + (-xi ^ 2 + xi ^ 3) * d2.getD i 0) ∧
      (∀ i, i < v1.length →
        s.getD i 0 = (-6 * xi + 6 * xi ^ 2) * v1.getD i 0
          + (1 - 4 * xi + 3 * xi ^ 2) * d1.getD i 0
          + (6 * xi - 6 * xi ^ 2) * v2.getD i 0
          + (-2 * xi + 3 * xi ^ 2) * d2.getD i 0) := by
  obtain ⟨r, hr, hrlen, hrcomp⟩ :=
    hermiteCombineLists_some (1.0 - 3.0 * (xi * xi) + 2.0 * (xi * xi * xi))
      (xi - 2.0 * (xi * xi) + xi * xi * xi) (3.0 * (xi * xi) - 2.0 * (xi * xi * xi))
      (-(xi * xi) + xi * xi * xi) v1 d1 v2 d2 h1 h2 h3
  obtain ⟨s, hs, hslen, hscomp⟩ :=
    hermiteCombineLists_some (-6.0 * xi + 6.0 * (xi * xi))
      (1.0 - 4.0 * xi + 3.0 * (xi * xi)) (6.0 * xi - 6.0 * (xi * xi))
      (-2.0 * xi + 3.0 * (xi * xi)) v1 d1 v2 d2 h1 h2 h3
  refine ⟨r, s, ?_, ?_, hrlen, hslen, ?_, ?_⟩
  · simpa [interpolateCubicHermite] using hr
  · simpa [interpolateCubicHermiteDerivative] using hs
  · intro i hi
    rw [hrcomp i hi]
    ring
  · intro i hi
    rw [hscomp i hi]
    ring

/-- Witness for C7 at concrete input. -/
theorem interpolateCubicHermite_blend_witness :
    ([(1 : ℝ), 2].length ≤ [(0 : ℝ), 0].length) ∧
    ∃ r s : List ℝ,
      interpolateCubicHermite [(1 : ℝ), 2] [0, 0] [0, 1] [1, 1] (1 / 2) = some r ∧
      interpolateCubicHermiteDerivative [(1 : ℝ), 2] [0, 0] [0, 1] [1, 1] (1 / 2) = some s ∧
      r.length = ([(1 : ℝ), 2] : List ℝ).length ∧
      s.length = ([(1 : ℝ), 2] : List ℝ).length ∧
      (∀ i, i < ([(1 : ℝ), 2] : List ℝ).length →
        r.getD i 0 = (1 - 3 * (1 / 2 : ℝ) ^ 2 + 2 * (1 / 2 : ℝ) ^ 3) * ([(1 : ℝ), 2]).getD i 0
          + ((1 / 2 : ℝ) - 2 * (1 / 2 : ℝ) ^ 2 + (1 / 2 : ℝ) ^ 3) * ([(0 : ℝ), 0]).getD i 0
          + (3 * (1 / 2 : ℝ) ^ 2 - 2 * (1 / 2 : ℝ) ^ 3) * ([(0 : ℝ), 1]).getD i 0
          + (-(1 / 2 : ℝ) ^ 2 + (1 / 2 : ℝ) ^ 3) * ([(1 : ℝ), 1]).getD i 0) ∧
      (∀ i, i < ([(1 : ℝ), 2] : List ℝ).length →
        s.getD i 0 = (-6 * (1 / 2 : ℝ) + 6 * (1 / 2 : ℝ) ^ 2) * ([(1 : ℝ), 2]).getD i 0
          + (1 - 4 * (1 / 2 : ℝ) + 3 * (1 / 2 : ℝ) ^ 2) * ([(0 : ℝ), 0]).getD i 0
          + (6 * (1 / 2 : ℝ) - 6 * (1 / 2 : ℝ) ^ 2) * ([(0 : ℝ), 1]).getD i 0
          + (-2 * (1 / 2 : ℝ) + 3 * (1 / 2 : ℝ) ^ 2) * ([(1 : ℝ), 1]).getD i 0) :=
  ⟨by simp,
   interpolateCubicHermite_blend [(1 : ℝ), 2] [0, 0] [0, 1] [1, 1] (1 / 2)
     (by simp) (by simp) (by simp)⟩

/-- C10: both kernel functions iterate over the indices of `v1` only:
they succeed, with a result of exactly `v1.length` components, exactly
when `d1`, `v2`, `d2` are each at least as long as `v1`, and fail with
an out-of-range access (modelled as `none`) otherwise. -/
theorem interpolateCubicHermite_index_safety (v1 d1 v2 d2 : List ℝ) (xi : ℝ) :
    (interpolateCubicHermite v1 d1 v2 d2 xi).map List.length =
      (if v1.length ≤ d1.length ∧ v1.length ≤ v2.length ∧ v1.length ≤ d2.length then
        some v1.length else none) ∧
    (interpolateCubicHermiteDerivative v1 d1 v2 d2 xi).map List.length =
      (if v1.length ≤ d1.length ∧ v1.length ≤ v2.length ∧ v1.length ≤ d2.length then
        some v1.length else none) :=
  ⟨hermiteCombineLists_length_trichotomy _ _ _ _ v1 d1 v2 d2,
   hermiteCombineLists_length_trichotomy _ _ _ _ v1 d1 v2 d2⟩

/-! ## C6: option clamping -/

/-- C6: `checkOptions` leaves in-range options unchanged, replaces
below-range values by the lower bounds 2, 2, 0, 0, and replaces wall
thicknesses above 0.5 by exactly 0.5. -/
theorem checkOptions_clamps (o : Options) :
    ((2 ≤ o.elementsCountUp ∧ 2 ≤ o.elementsCountAcross ∧
      0 ≤ o.wallThicknessLeft ∧ o.wallThicknessLeft ≤ 0.5 ∧
      0 ≤ o.wallThicknessRight ∧ o.wallThicknessRight ≤ 0.5 ∧
      0 ≤ o.apexScaleFactorIdentifierOffset) → checkOptions o = o) ∧
    (o.elementsCountUp < 2 → (checkOptions o).elementsCountUp = 2) ∧
    (o.elementsCountAcross < 2 → (checkOptions o).elementsCountAcross = 2) ∧
    (o.wallThicknessLeft < 0 → (checkOptions o).wallThicknessLeft = 0) ∧
    (o.wallThicknessRight < 0 → (checkOptions o).wallThicknessRight = 0) ∧
    (o.apexScaleFactorIdentifierOffset < 0 →
      (checkOptions o).apexScaleFactorIdentifierOffset = 0) ∧
    (0.5 < o.wallThicknessLeft → (checkOptions o).wallThicknessLeft = 0.5) ∧
    (0.5 < o.wallThicknessRight → (checkOptions o).wallThicknessRight = 0.5) := by
  refine ⟨?_, ?_, ?_, ?_, ?_, ?_, ?_, ?_⟩
  · rintro ⟨hu, ha, hl0, hl5, hr0, hr5, hoff⟩
    cases o
    simp only [checkOptions] at *
    congr 1 <;> split_ifs <;> first | rfl | omega | (exfalso; linarith)
  all_goals intro h
  all_goals simp only [checkOptions]
  all_goals split_ifs <;> first | rfl | omega | (exfalso; linarith)

/-- Witness for C6 at concrete options. -/
theorem checkOptions_clamps_witness :
    checkOptions getDefaultOptions = getDefaultOptions ∧
    (checkOptions optionsLow).elementsCountUp = 2 ∧
    (checkOptions optionsLow).elementsCountAcross = 2 ∧
    (checkOptions optionsLow).wallThicknessLeft = 0 ∧
    (checkOptions optionsLow).wallThicknessRight = 0 ∧
    (checkOptions optionsLow).apexScaleFactorIdentifierOffset = 0 ∧
    (checkOptions optionsHigh).wallThicknessLeft = 0.5 ∧
    (checkOptions optionsHigh).wallThicknessRight = 0.5 :=
  ⟨(checkOptions_clamps getDefaultOptions).1 (by norm_num [getDefaultOptions]),
   (checkOptions_clamps optionsLow).2.1 (by norm_num [optionsLow]),
   (checkOptions_clamps optionsLow).2.2.1 (by norm_num [optionsLow]),
   (checkOptions_clamps optionsLow).2.2.2.1 (by norm_num [optionsLow]),
   (checkOptions_clamps optionsLow).2.2.2.2.1 (by norm_num [optionsLow]),
   (checkOptions_clamps optionsLow).2.2.2.2.2.1 (by norm_num [optionsLow]),
   (checkOptions_clamps optionsHigh).2.2.2.2.2.2.1 (by norm_num [optionsHigh]),
   (checkOptions_clamps optionsHigh).2.2.2.2.2.2.2 (by norm_num [optionsHigh])⟩

/-! ## C2: apex scale-factor identifier offset -/

/-- C2 (code-bug evidence): with the 'Apex scale factor identifier
offset' option set to 5, `checkOptions` keeps it at 5, yet
`generateMesh` applies the hard-coded offset 10000 (line 103) when
building the identifiers of the pole-touching scale factors of
`eftOuterApex0`, `eftOuterApex1` and `eftOuterApex2`, so the applied
offset differs from the clamped option. -/
theorem apexOffset_hardcoded_bug :
    generateMesh_apexScaleFactorIdentifierOffset optionsOffset5 = 10000 ∧
    (checkOptions optionsOffset5).apexScaleFactorIdentifierOffset = 5 ∧
    eftOuterApex0_scaleFactorIdentifiers
        (generateMesh_apexScaleFactorIdentifierOffset optionsOffset5) =
      [10001, 10002, 10001, 10002, 1, 2, 1, 2] ∧
    eftOuterApex1_scaleFactorIdentifiers
        (generateMesh_apexScaleFactorIdentifierOffset optionsOffset5) =
      [10001, 10002, 10001, 10002, 1, 2, 1, 2] ∧
    eftOuterApex2_scaleFactorIdentifiers
        (generateMesh_apexScaleFactorIdentifierOffset optionsOffset5) =
      [1, 2, 1, 2, 10001, 10002, 10001, 10002] ∧
    eftOuterApex0_scaleFactorIdentifiers
        (generateMesh_apexScaleFactorIdentifierOffset optionsOffset5) ≠
      eftOuterApex0_scaleFactorIdentifiers
        ((checkOptions optionsOffset5).apexScaleFactorIdentifierOffset) := by
  refine ⟨rfl, ?_, by decide, by decide, by decide, by decide⟩
  norm_num [checkOptions, optionsOffset5, getDefaultOptions]

/-! ## Element-trace helper lemmas -/

lemma sum_map_range_const (n c : ℕ) : ((List.range n).map (fun _ => c)).sum = n * c := by
  induction n with
  | zero => simp
  | succ k ih => rw [List.range_succ, List.map_append, List.sum_append, ih]; simp; ring

lemma map_range_const {α : Type} (n : ℕ) (c : α) :
    (List.range n).map (fun _ => c) = List.replicate n c := by
  induction n with
  | zero => rfl
  | succ k ih =>
      rw [List.range_succ, List.map_append, ih, List.replicate_succ']
      simp

lemma elemRowBlock_length (U A e2 : ℕ) (hA : 2 ≤ A) :
    (elemRowBlock U A e2).length = A + 2 := by
  simp only [elemRowBlock, List.length_append, List.length_cons, List.length_nil,
    List.length_map, List.length_range]
  omega

lemma elemCreationSequence_length (U A : ℕ) (hA : 2 ≤ A) :
    (elemCreationSequence U A).length = 4 + (U - 2) * (A + 2) := by
  have hrow : (List.length ∘ elemRowBlock U A) = fun _ : ℕ => A + 2 :=
    funext (fun e2 => elemRowBlock_length U A e2 hA)
  simp only [elemCreationSequence, List.length_append, List.length_flatten,
    List.map_map, hrow, sum_map_range_const, elemBottomApexRow, elemTopApexRow,
    List.length_cons, List.length_nil]
  generalize (U - 2) * (A + 2) = m
  omega

lemma generateMeshElements_length (o : Options) (hA : 2 ≤ o.elementsCountAcross) :
    (generateMeshElements o).length =
      4 + (o.elementsCountUp.toNat - 2) * (o.elementsCountAcross.toNat + 2) := by
  have hA2 : 2 ≤ o.elementsCountAcross.toNat := by omega
  simp only [generateMeshElements, List.length_map, List.enum_length]
  exact elemCreationSequence_length _ _ hA2

lemma enum_map_add_one {α : Type} (l : List α) :
    l.enum.map (fun p => p.1 + 1) = List.range' 1 l.length := by
  rw [show (fun p : ℕ × α => p.1 + 1) = (fun n => n + 1) ∘ Prod.fst from rfl,
    ← List.map_map, List.enum_map_fst, List.range'_eq_map_range]
  exact List.map_congr_left (fun x _ => by omega)

lemma elemRowBlock_map_eft (U A e2 : ℕ) :
    (elemRowBlock U A e2).map (fun e => e.eft) =
      [EftVariant.outer, EftVariant.inner1] ++
      List.replicate (A - 2) EftVariant.regular ++
      [EftVariant.inner2, EftVariant.outer] := by
  simp only [elemRowBlock, List.map_append, List.map_map, List.map_cons, List.map_nil,
    Function.comp_def]
  rw [map_range_const]

lemma elemCreationSequence_inner_scale (U A : ℕ) (p : ElemPre)
    (hp : p ∈ elemCreationSequence U A)
    (hv : p.eft = EftVariant.inner1 ∨ p.eft = EftVariant.inner2) :
    p.scale = ScaleAction.setOne 1 (-1.0) := by
  simp only [elemCreationSequence, List.mem_append, elemBottomApexRow, elemTopApexRow,
    List.mem_cons, List.not_mem_nil, or_false, List.mem_flatten, List.mem_map] at hp
  rcases hp with ((hbot | ⟨lb, ⟨e2, -, rfl⟩, hmem⟩) | htop)
  · rcases hbot with h | h <;> subst h <;> rcases hv with hv | hv <;> simp at hv
  · simp only [elemRowBlock, List.mem_append, List.mem_cons, List.not_mem_nil, or_false,
      List.mem_map, List.mem_range] at hmem
    rcases hmem with (((h | h) | ⟨e1, -, h⟩) | (h | h)) <;> subst h <;>
      first
        | rfl
        | (rcases hv with hv | hv <;> simp at hv)
  · rcases htop with h | h <;> subst h <;> rcases hv with hv | hv <;> simp at hv

/-! ## C1: element count -/

/-- C1 (amended): for clamped options with `elementsCountUp = U >= 2`
and `elementsCountAcross = A >= 2`, `generateMesh` creates exactly
`4 + (U-2)*(4 + (A-2))` elements (each interior row contributes
`4 + (A-2)` elements, not `3 + (A-2)`). -/
theorem generateMeshElements_count (o : Options)
    (hU : 2 ≤ o.elementsCountUp) (hA : 2 ≤ o.elementsCountAcross) :
    (generateMeshElements o).length =
      4 + (o.elementsCountUp.toNat - 2) * (4 + (o.elementsCountAcross.toNat - 2)) := by
  rw [generateMeshElements_length o hA]
  have h : o.elementsCountAcross.toNat + 2 = 4 + (o.elementsCountAcross.toNat - 2) := by
    omega
  rw [h]

/-- C1 fails as stated: with the default options (`U = 4`, `A = 2`) the
mesh has 12 elements, not the claimed `4 + (U-2)*(3 + (A-2)) = 10`. -/
theorem generateMeshElements_count_counterexample :
    (generateMeshElements getDefaultOptions).length ≠ 4 + (4 - 2) * (3 + (2 - 2)) := by
  have h := generateMeshElements_length getDefaultOptions (by decide)
  have h12 : (generateMeshElements getDefaultOptions).length = 12 := by
    rw [h]; decide
  rw [h12]; decide

/-- Witness for the amended C1 at the default options. -/
theorem generateMeshElements_count_witness :
    (generateMeshElements getDefaultOptions).length = 12 := by
  have h := generateMeshElements_count getDefaultOptions (by decide) (by decide)
  rw [h]; decide

/-! ## C8: element creation order -/

/-- C8: element creation follows the fixed order with identifiers
1, 2, 3, ...: two bottom apex elements (outerApex1 then outerApex0),
then for each interior row one outer, one inner1,
`elementsCountAcross - 2` regular, one inner2, one outer element, and
finally two top apex elements (outerApex0 then outerApex2). -/
theorem generateMeshElements_order (o : Options) :
    (generateMeshElements o).map (fun e => e.eft) =
      ([EftVariant.outerApex1, EftVariant.outerApex0] ++
       ((List.range (o.elementsCountUp.toNat - 2)).map (fun _ =>
          [EftVariant.outer, EftVariant.inner1] ++
          List.replicate (o.elementsCountAcross.toNat - 2) EftVariant.regular ++
          [EftVariant.inner2, EftVariant.outer])).flatten ++
       [EftVariant.outerApex0, EftVariant.outerApex2]) ∧
    (generateMeshElements o).map (fun e => e.id) =
      List.range' 1 (generateMeshElements o).length := by
  constructor
  · have h1 : (generateMeshElements o).map (fun e => e.eft) =
        (elemCreationSequence o.elementsCountUp.toNat o.elementsCountAcross.toNat).map
          (fun e => e.eft) := by
      simp only [generateMeshElements, List.map_map]
      rw [show ((fun e : ElemRec => e.eft) ∘ fun p : ℕ × ElemPre =>
          ({ id := p.1 + 1, eft := p.2.eft, nodeIdentifiers := p.2.nodeIdentifiers,
             scale := p.2.scale } : ElemRec)) =
          ((fun e : ElemPre => e.eft) ∘ Prod.snd) from rfl,
        ← List.map_map, List.enum_map_snd]
    rw [h1]
    simp only [elemCreationSequence, List.map_append, List.map_flatten, List.map_map,
      elemBottomApexRow, elemTopApexRow, List.map_cons, List.map_nil]
    congr 2
    congr 1
    apply List.map_congr_left
    intro e2 _
    simp only [Function.comp_apply]
    exact elemRowBlock_map_eft _ _ e2
  · simp only [generateMeshElements, List.map_map, List.length_map, List.enum_length]
    rw [show ((fun e : ElemRec => e.id) ∘ fun p : ℕ × ElemPre =>
        ({ id := p.1 + 1, eft := p.2.eft, nodeIdentifiers := p.2.nodeIdentifiers,
           scale := p.2.scale } : ElemRec)) =
        (fun p : ℕ × ElemPre => p.1 + 1) from rfl]
    exact enum_map_add_one _

/-! ## C3: scale factors supplied to inner1/inner2 elements -/

/-- C3 fails as stated: not every inner1/inner2 element receives a
complete scale-factor vector at creation (with the default options,
element 4 uses inner1 and only gets a single `setScaleFactor` call). -/
theorem innerElements_scale_counterexample :
    ¬ (∀ e ∈ generateMeshElements getDefaultOptions,
        (e.eft = EftVariant.inner1 ∨ e.eft = EftVariant.inner2) →
        e.scale.isSetAll = true) := by
  decide

/-- C3 (amended): every element created with the inner1 or inner2
variant is supplied, at element creation, only the single global scale
factor: `setScaleFactor(index 1, value -1.0)`; the eight node-general
constants are not supplied there. -/
theorem innerElements_scaleAction (o : Options) (e : ElemRec)
    (he : e ∈ generateMeshElements o)
    (hv : e.eft = EftVariant.inner1 ∨ e.eft = EftVariant.inner2) :
    e.scale = ScaleAction.setOne 1 (-1.0) := by
  simp only [generateMeshElements, List.mem_map] at he
  obtain ⟨p, hp, rfl⟩ := he
  have hsnd : p.2 ∈ (elemCreationSequence o.elementsCountUp.toNat
      o.elementsCountAcross.toNat).enum.map Prod.snd :=
    List.mem_map_of_mem Prod.snd hp
  rw [List.enum_map_snd] at hsnd
  exact elemCreationSequence_inner_scale _ _ p.2 hsnd hv

/-- Witness for the amended C3: element 4 of the default mesh. -/
theorem innerElements_scaleAction_witness :
    ∃ e ∈ generateMeshElements getDefaultOptions,
      (e.eft = EftVariant.inner1 ∨ e.eft = EftVariant.inner2) ∧
      e.scale = ScaleAction.setOne 1 (-1.0) := by
  have h3 : (generateMeshElements getDefaultOptions).get? 3 =
      some { id := 4, eft := EftVariant.inner1,
             nodeIdentifiers := [4, 5, 9, 10, 23, 24, 28, 29],
             scale := ScaleAction.setOne 1 (-1.0) } := rfl
  have hmem := List.get?_mem h3
  exact ⟨_, hmem, Or.inl rfl,
    innerElements_scaleAction getDefaultOptions _ hmem (Or.inl rfl)⟩

/-! ## C4: node count and identifiers -/

lemma sideNodes_length (wt0 wt1 : ℝ) (U A : ℕ) (uc : Bool) (n3 : ℕ) :
    (sideNodes wt0 wt1 U A uc n3).length = 4 + (U - 1) * (A + 3) := by
  simp only [sideNodes, List.length_append, List.length_flatten, List.map_map,
    Function.comp_def, List.length_map, List.length_range, List.length_cons,
    List.length_nil]
  rw [sum_map_range_const]
  generalize (U - 1) * (A + 3) = m
  omega

/-- C4: for clamped options with `U >= 2` and `A >= 2`, `generateMesh`
creates exactly `2*(4 + (U-1)*(A+3))` nodes, with identifiers assigned
sequentially starting at 1. -/
theorem generateMeshNodes_count (o : Options)
    (hU : 2 ≤ o.elementsCountUp) (hA : 2 ≤ o.elementsCountAcross) :
    (generateMeshNodes o).length =
      2 * (4 + (o.elementsCountUp.toNat - 1) * (o.elementsCountAcross.toNat + 3)) ∧
    (generateMeshNodes o).map (fun nd => nd.id) =
      List.range' 1 ((generateMeshNodes o).length) := by
  constructor
  · simp only [generateMeshNodes, List.length_map, List.enum_length, List.length_append,
      sideNodes_length]
    ring
  · simp only [generateMeshNodes, List.map_map, List.length_map, List.enum_length]
    rw [show ((fun nd : NodeRec => nd.id) ∘ fun p : ℕ × NodeData =>
        ({ id := p.1 + 1, x := p.2.x, dx_ds1 := p.2.dx_ds1, dx_ds2 := p.2.dx_ds2,
           dx_ds3 := p.2.dx_ds3, cross := p.2.cross } : NodeRec)) =
        (fun p : ℕ × NodeData => p.1 + 1) from rfl]
    exact enum_map_add_one _

/-- Witness for C4: `U = 2`, `A = 2` gives 18 nodes numbered 1..18. -/
theorem generateMeshNodes_count_witness :
    (generateMeshNodes optionsU2A2).length = 18 ∧
    (generateMeshNodes optionsU2A2).map (fun nd => nd.id) = List.range' 1 18 := by
  have h := generateMeshNodes_count optionsU2A2 (by decide) (by decide)
  have h18 : (generateMeshNodes optionsU2A2).length = 18 := by
    rw [h.1]; decide
  refine ⟨h18, ?_⟩
  rw [h.2, h18]

/-! ## C9: determinism -/

/-- C9: `generateMesh` is deterministic: two runs whose options agree in
all six option values produce identical node and element creation
traces, including every coordinate and derivative vector. -/
theorem generateMeshTrace_deterministic (o1 o2 : Options)
    (h1 : o1.elementsCountUp = o2.elementsCountUp)
    (h2 : o1.elementsCountAcross = o2.elementsCountAcross)
    (h3 : o1.wallThicknessLeft = o2.wallThicknessLeft)
    (h4 : o1.wallThicknessRight = o2.wallThicknessRight)
    (h5 : o1.apexScaleFactorIdentifierOffset = o2.apexScaleFactorIdentifierOffset)
    (h6 : o1.useCrossDerivatives = o2.useCrossDerivatives) :
    generateMeshTrace o1 = generateMeshTrace o2 := by
  have h : o1 = o2 := by
    cases o1
    cases o2
    simp only [Options.mk.injEq]
    exact ⟨h1, h2, h3, h4, h5, h6⟩
  rw [h]

/-- Witness for C9: the default options written with different literals. -/
theorem generateMeshTrace_deterministic_witness :
    generateMeshTrace getDefaultOptions = generateMeshTrace optionsDefaultAlt :=
  generateMeshTrace_deterministic getDefaultOptions optionsDefaultAlt rfl rfl
    (by norm_num [getDefaultOptions, optionsDefaultAlt])
    (by norm_num [getDefaultOptions, optionsDefaultAlt]) rfl rfl

/-! ## C5: side bulge and mirror symmetry -/

lemma hermiteCombineLists_triple (f1 f2 f3 f4 a1 b1 c1 a2 b2 c2 a3 b3 c3 a4 b4 c4 : ℝ) :
    hermiteCombineLists f1 f2 f3 f4 [a1, b1, c1] [a2, b2, c2] [a3, b3, c3] [a4, b4, c4] =
      some [f1 * a1 + f2 * a2 + f3 * a3 + f4 * a4,
            f1 * b1 + f2 * b2 + f3 * b3 + f4 * b4,
            f1 * c1 + f2 * c2 + f3 * c3 + f4 * c4] := by
  simp [hermiteCombineLists]

lemma interpolateCubicHermite_triple (a1 b1 c1 a2 b2 c2 a3 b3 c3 a4 b4 c4 xi : ℝ) :
    interpolateCubicHermite [a1, b1, c1] [a2, b2, c2] [a3, b3, c3] [a4, b4, c4] xi =
      some [(1.0 - 3.0 * (xi * xi) + 2.0 * (xi * xi * xi)) * a1
              + (xi - 2.0 * (xi * xi) + xi * xi * xi) * a2
              + (3.0 * (xi * xi) - 2.0 * (xi * xi * xi)) * a3
              + (-(xi * xi) + xi * xi * xi) * a4,
            (1.0 - 3.0 * (xi * xi) + 2.0 * (xi * xi * xi)) * b1
              + (xi - 2.0 * (xi * xi) + xi * xi * xi) * b2
              + (3.0 * (xi * xi) - 2.0 * (xi * xi * xi)) * b3
              + (-(xi * xi) + xi * xi * xi) * b4,
            (1.0 - 3.0 * (xi * xi) + 2.0 * (xi * xi * xi)) * c1
              + (xi - 2.0 * (xi * xi) + xi * xi * xi) * c2
              + (3.0 * (xi * xi) - 2.0 * (xi * xi * xi)) * c3
              + (-(xi * xi) + xi * xi * xi) * c4] := by
  simp only [interpolateCubicHermite]
  exact hermiteCombineLists_triple _ _ _ _ _ _ _ _ _ _ _ _ _ _ _ _

lemma interpolateCubicHermiteDerivative_triple (a1 b1 c1 a2 b2 c2 a3 b3 c3 a4 b4 c4 xi : ℝ) :
    interpolateCubicHermiteDerivative [a1, b1, c1] [a2, b2, c2] [a3, b3, c3] [a4, b4, c4] xi =
      some [(-6.0 * xi + 6.0 * (xi * xi)) * a1
              + (1.0 - 4.0 * xi + 3.0 * (xi * xi)) * a2
              + (6.0 * xi - 6.0 * (xi * xi)) * a3
              + (-2.0 * xi + 3.0 * (xi * xi)) * a4,
            (-6.0 * xi + 6.0 * (xi * xi)) * b1
              + (1.0 - 4.0 * xi + 3.0 * (xi * xi)) * b2
              + (6.0 * xi - 6.0 * (xi * xi)) * b3
              + (-2.0 * xi + 3.0 * (xi * xi)) * b4,
            (-6.0 * xi + 6.0 * (xi * xi)) * c1
              + (1.0 - 4.0 * xi + 3.0 * (xi * xi)) * c2
              + (6.0 * xi - 6.0 * (xi * xi)) * c3
              + (-2.0 * xi + 3.0 * (xi * xi)) * c4] := by
  simp only [interpolateCubicHermiteDerivative]
  exact hermiteCombineLists_triple _ _ _ _ _ _ _ _ _ _ _ _ _ _ _ _

lemma sign_zero : sign 0 = -1 := by norm_num [sign]

lemma sign_one : sign 1 = 1 := by norm_num [sign]

lemma wallThicknessAt_same (wt : ℝ) (n3 : ℕ) : wallThicknessAt wt wt n3 = wt := by
  unfold wallThicknessAt
  split <;> rfl

lemma outerYAdjust_same (wt : ℝ) (A : ℕ) : outerYAdjust wt wt A = 0 := by
  simp [outerYAdjust]

lemma bottomApexNode1_mirror (wt : ℝ) (U A : ℕ) :
    (bottomApexNode1 wt wt U A 0).x = mirrorY ((bottomApexNode1 wt wt U A 1).x) := by
  simp only [bottomApexNode1, mirrorY, sign_zero, sign_one, wallThicknessAt_same,
    outerYAdjust_same, List.getD_cons_zero, List.getD_cons_succ]
  norm_num

lemma bottomApexNode2_mirror (wt : ℝ) (U A : ℕ) :
    (bottomApexNode2 wt wt U A 0).x = mirrorY ((bottomApexNode2 wt wt U A 1).x) := by
  simp only [bottomApexNode2, mirrorY, sign_zero, sign_one, wallThicknessAt_same,
    List.getD_cons_zero, List.getD_cons_succ]
  norm_num

lemma topApexNode1_mirror (wt : ℝ) (U A : ℕ) :
    (topApexNode1 wt wt U A 0).x = mirrorY ((topApexNode1 wt wt U A 1).x) := by
  simp only [topApexNode1, mirrorY, sign_zero, sign_one, wallThicknessAt_same,
    List.getD_cons_zero, List.getD_cons_succ]
  norm_num

lemma topApexNode2_mirror (wt : ℝ) (U A : ℕ) :
    (topApexNode2 wt wt U A 0).x = mirrorY ((topApexNode2 wt wt U A 1).x) := by
  simp only [topApexNode2, mirrorY, sign_zero, sign_one, wallThicknessAt_same,
    outerYAdjust_same, List.getD_cons_zero, List.getD_cons_succ]
  norm_num

lemma rowNode_mirror (wt : ℝ) (U A : ℕ) (uc : Bool) (n2 n1 : ℕ) :
    (rowNode wt wt U A uc 0 n2 n1).x = mirrorY ((rowNode wt wt U A uc 1 n2 n1).x) := by
  by_cases h1 : n1 = 0 ∨ n1 = A + 2
  · simp only [rowNode, if_pos h1, mirrorY, sign_zero, sign_one, wallThicknessAt_same,
      outerYAdjust_same, List.getD_cons_zero, List.getD_cons_succ, List.cons.injEq,
      and_true]
    norm_num
  · by_cases h2 : n1 = 1 ∨ n1 = A + 1
    · simp only [rowNode, if_neg h1, if_pos h2, mirrorY, sign_zero, sign_one,
        wallThicknessAt_same, List.getD_cons_zero, List.getD_cons_succ, List.cons.injEq,
        and_true]
      norm_num
    · by_cases hf : (n1 - 1) * 2 > A
      · simp only [rowNode, if_neg h1, if_neg h2, sign_zero, sign_one, wallThicknessAt_same,
          interpolateCubicHermite_triple, interpolateCubicHermiteDerivative_triple,
          Option.getD_some, if_pos hf, mirrorY, List.getD_cons_zero, List.getD_cons_succ,
          List.cons.injEq, and_true]
        refine ⟨?_, ?_, ?_⟩ <;> ring_nf
      · simp only [rowNode, if_neg h1, if_neg h2, sign_zero, sign_one, wallThicknessAt_same,
          interpolateCubicHermite_triple, interpolateCubicHermiteDerivative_triple,
          Option.getD_some, if_neg hf, mirrorY, List.getD_cons_zero, List.getD_cons_succ,
          List.cons.injEq, and_true]
        refine ⟨?_, ?_, ?_⟩ <;> ring_nf

lemma sideNodes_mirror (wt : ℝ) (U A : ℕ) (uc : Bool) :
    (sideNodes wt wt U A uc 0).map (fun nd => nd.x) =
      (sideNodes wt wt U A uc 1).map (fun nd => mirrorY nd.x) := by
  simp only [sideNodes, List.map_append, List.map_cons, List.map_nil, List.map_flatten,
    List.map_map]
  congr 1
  · congr 1
    · rw [bottomApexNode1_mirror, bottomApexNode2_mirror]
    · congr 1
      apply List.map_congr_left
      intro k _
      simp only [Function.comp_apply, List.map_map]
      apply List.map_congr_left
      intro n1 _
      simp only [Function.comp_apply]
      exact rowNode_mirror wt U A uc (k + 1) n1
  · rw [topApexNode1_mirror, topApexNode2_mirror]

/-- C5 fails as stated: for equal wall thicknesses 0.25 and
`elementsCountAcross = 2`, the `sideBulge` term is 0.125, not zero. -/
theorem sideBulge_counterexample : sideBulge (0.25 : ℝ) 0.25 2 ≠ 0 := by
  norm_num [sideBulge, radiusY, radiusX, wallThicknessSeptum, max_self]

/-- C5 (amended): when the two wall thicknesses are equal the node
positions are mirror-symmetric about the septum mid-plane `y = 0`: the
position list of wall side `n3 = 0` equals that of side `n3 = 1` with
the `y` coordinate negated.  (The `sideBulge` term itself is generally
nonzero even for equal thicknesses; it enters both sides symmetrically.) -/
theorem septum_mirror_symmetry (wt0 wt1 : ℝ) (U A : ℕ) (uc : Bool) (h : wt0 = wt1) :
    (sideNodes wt0 wt1 U A uc 0).map (fun nd => nd.x) =
      (sideNodes wt0 wt1 U A uc 1).map (fun nd => mirrorY nd.x) := by
  subst h
  exact sideNodes_mirror wt0 U A uc

/-- Witness for the amended C5 at concrete parameters. -/
theorem septum_mirror_symmetry_witness :
    (sideNodes (0.25 : ℝ) 0.25 2 2 false 0).map (fun nd => nd.x) =
      (sideNodes (0.25 : ℝ) 0.25 2 2 false 1).map (fun nd => mirrorY nd.x) :=
  septum_mirror_symmetry 0.25 0.25 2 2 false rfl

end SphereShellSeptum
